import Mathlib

/-!
Verification of the gathio federation subsystem.

A shallow embedding of the federation-relevant parts of gathio:

* the HTTP-signature verification in the inbox endpoint
  (`src/routes.js`, `router.post("/activitypub/inbox")`, lines 1432-1505);
* the broadcast-then-delete sequencing of the scheduled deletion job
  (`src/routes.js` lines 84-184) and the delete-event route
  (`src/routes.js` lines 265-305);
* the content-negotiated event page
  (`router.get("/:eventID")` in the TypeScript frontend routes file);
* the module-level `isFederated` initializer (`src/routes.js` line 33).

JavaScript strings are modelled as Lean `String`s (lists of characters),
JavaScript's `undefined` as `Option.none`, and the cryptographic and JSON
primitives as function parameters, since only their call structure is
decided by this code.
-/

namespace Gathio

/-! ## JavaScript values and truthiness -/

/-- The JavaScript values a configuration field can hold. -/
inductive JsValue where
  | undef
  | null
  | bool (b : Bool)
  | num (n : Int)
  | str (s : String)
deriving DecidableEq, Repr

/-- JavaScript truthiness (`NaN` does not arise for configuration fields). -/
def truthy : JsValue → Bool
  | .undef => false
  | .null => false
  | .bool b => b
  | .num n => n != 0
  | .str s => s != ""

/-- JavaScript `a || b`: `a` when `a` is truthy, otherwise `b`. -/
def jsOr (a b : JsValue) : JsValue :=
  if truthy a then a else b

/-- Line 33 of `src/routes.js`:
`const isFederated = config.general.is_federated || true;` -/
def isFederated (is_federated : JsValue) : JsValue :=
  jsOr is_federated (.bool true)

/-! ## String splitting (JS `String.prototype.split` with a one-char separator)

All three splits performed by the inbox handler use a single-character
separator (`","`, `"="`, `" "`), so we model exactly that case. -/

/-- Split a character list at every occurrence of `sep`.  Mirrors JS
`split` semantics: the result is never empty, and separators at the ends
produce empty segments. -/
def splitOnChar (sep : Char) : List Char → List (List Char)
  | [] => [[]]
  | c :: rest =>
    match splitOnChar sep rest with
    | [] => [[]]
    | s :: ss => if c = sep then [] :: s :: ss else (c :: s) :: ss

/-- JS `s.split(sep)` for a one-character separator. -/
def jsSplit (sep : Char) (s : String) : List String :=
  (splitOnChar sep s.data).map String.mk

/-! ## Signature header parsing (`src/routes.js` lines 1439-1449) -/

/-- Model of `value.replace(/^"/g, "")`: remove one double quote at the start. -/
def dropLeadingQuote : List Char → List Char
  | [] => []
  | c :: rest => if c = '"' then rest else c :: rest

/-- Model of `value.replace(/"$/g, "")`: remove one double quote at the end. -/
def dropTrailingQuote (l : List Char) : List Char :=
  (dropLeadingQuote l.reverse).reverse

/-- The per-token quote stripping applied by the parser's inner `map`. -/
def stripQuotes (s : String) : String :=
  String.mk (dropTrailingQuote (dropLeadingQuote s.data))

/-- Lines 1439-1445 of `src/routes.js`: split the signature header on `","`;
split each pair on `"="`; strip quotes from every token.  The reduce on
lines 1446-1449 stores `el[0] ↦ el[1]`; `el[1]` is `undefined` (`none`)
when the pair contained no `"="`. -/
def parseSignatureHeader (signature : String) : List (String × Option String) :=
  (jsSplit ',' signature).map (fun pair =>
    let el := (jsSplit '=' pair).map stripQuotes
    (el.headD "", el[1]?))

/-- Reading property `k` of the object built by the reduce: the last
assignment to a key wins, and a key that was never assigned — or was
assigned `undefined` — reads as `undefined` (`none`). -/
def sigField (signature : String) (k : String) : Option String :=
  match (parseSignatureHeader signature).reverse.find? (fun p => p.1 == k) with
  | some p => p.2
  | none => none

/-! ## The comparison string (`src/routes.js` lines 1471-1480) -/

/-- How a possibly-`undefined` value renders inside a JS template literal. -/
def templateStr (o : Option String) : String :=
  o.getD "undefined"

/-- Lines 1471-1480 of `src/routes.js`: `signature_header.headers` split on
spaces; the `(request-target)` pseudo-header produces a hard-coded request
line; every other name produces `` `${header}: ${req.get(header)}` ``;
lines joined with `"\n"`. -/
def comparison_string (headersField : String) (reqGet : String → Option String) : String :=
  String.intercalate "\n" ((jsSplit ' ' headersField).map (fun header =>
    if header == "(request-target)" then
      "(request-target): post /activitypub/inbox"
    else
      header ++ ": " ++ templateStr (reqGet header)))

/-- ASCII lowercasing of a string (what `lowercase(method)` means in the
spec for an HTTP method name). -/
def lowercase (s : String) : String :=
  String.mk (s.data.map Char.toLower)

/-- The canonical signing string as the spec words it (§4.4 step 4): the
request-target line is built from the lowercased method and the request
path instead of being hard-coded. -/
def specSigningString (headersField method path : String)
    (reqGet : String → Option String) : String :=
  String.intercalate "\n" ((jsSplit ' ' headersField).map (fun header =>
    if header == "(request-target)" then
      "(request-target): " ++ lowercase method ++ " " ++ path
    else
      header ++ ": " ++ templateStr (reqGet header)))

/-! ## The inbox handler (`src/routes.js` lines 1432-1505) -/

/-- The `publicKey` member of a fetched actor document. -/
structure ActorPublicKey where
  publicKeyPem : Option String
deriving DecidableEq, Repr

/-- A fetched actor document, restricted to the only member the handler
reads (`JSON.parse(actor).publicKey`). -/
structure ActorDoc where
  publicKey : Option ActorPublicKey
deriving DecidableEq, Repr

/-- Lines 1461-1466: `let publicKey = "";` then, when the parsed actor has
a truthy `publicKey`, `publicKey = JSON.parse(actor).publicKey.publicKeyPem`.
`none` models the JS variable ending up `undefined` (a `publicKey` object
without a `publicKeyPem` member). -/
def resolvePublicKeyPem (doc : ActorDoc) : Option String :=
  match doc.publicKey with
  | some k => k.publicKeyPem
  | none => some ""

/-- Lines 1463-1469 read the fetched body: when the fetch errored the body
is `undefined` and `JSON.parse(actor)` throws; otherwise `JSON.parse`
either yields a document or throws (`none`). -/
def parsedActorOf (fetchedActor : Option String)
    (parseActor : String → Option ActorDoc) : Option ActorDoc :=
  match fetchedActor with
  | none => none
  | some a => parseActor a

/-- The inbound request as the handler reads it. -/
structure InboxRequest where
  method : String
  path : String
  /-- Value of `req.get("signature")`. -/
  signatureHeader : Option String
  /-- Value of `req.get(header)` for the comparison string. -/
  getHeader : String → Option String

/-- Everything the handler can do with an inbound message. -/
inductive InboxOutcome where
  /-- Response `res.sendStatus(404)` (line 1433). -/
  | notFederated
  /-- Response `res.status(401).send("No signature provided.")` (line 1437). -/
  | noSignature
  /-- Response `res.status(500).send("Actor could not be parsed" + err)` (line 1468). -/
  | actorParseError
  /-- Processing `processInbox(req, res)` reached (line 1492). -/
  | processed
  /-- Response `res.status(401).send("Signature could not be verified.")` (lines 1494-1496). -/
  | signatureRejected
  /-- Response `res.status(401).send("Signature could not be verified: " + err)` (lines 1499-1501). -/
  | verifyException
  /-- An exception thrown outside both `try` blocks: no response is sent. -/
  | crashed
deriving DecidableEq, Repr

/-- The HTTP status the handler responds with; `none` when the response is
delegated to `processInbox` or no response is produced at all. -/
def statusOf : InboxOutcome → Option Nat
  | .notFederated => some 404
  | .noSignature => some 401
  | .actorParseError => some 500
  | .processed => none
  | .signatureRejected => some 401
  | .verifyException => some 401
  | .crashed => none

/-- Lines 1432-1505 of `src/routes.js`, `router.post("/activitypub/inbox")`.

Environment and primitives appear as parameters: `fetchedActor` is the
body handed to the `request` callback (`none` when the fetch failed and
`actor` is `undefined`); `parseActor` models `JSON.parse` of that body
read as an actor document (`none` = throws); `base64Decode` models
`Buffer.from(·, "base64")`, which is total (Node ignores invalid
characters); `rsaVerify pem message sigBytes` models
`crypto.createVerify("RSA-SHA256")` updated with `message` and checked
against the key `pem` and the raw signature bytes (`none` = throws).

The three `.crashed` branches are the statements on lines 1471, 1483 and
1484 that sit outside both `try` blocks: `signature_header.headers.split`
throws when the `headers` field is `undefined`, and `Buffer.from` throws
when handed `undefined`. -/
def inboxHandler (is_federated : JsValue) (req : InboxRequest)
    (fetchedActor : Option String)
    (parseActor : String → Option ActorDoc)
    (base64Decode : String → List Nat)
    (rsaVerify : String → String → List Nat → Option Bool) : InboxOutcome :=
  if !(truthy (isFederated is_federated)) then .notFederated
  else
    match req.signatureHeader with
    | none => .noSignature
    | some signature =>
      match parsedActorOf fetchedActor parseActor with
      | none => .actorParseError
      | some doc =>
        match sigField signature "headers" with
        | none => .crashed
        | some headersField =>
          let cmp := comparison_string headersField req.getHeader
          match resolvePublicKeyPem doc with
          | none => .crashed
          | some publicKey =>
            match sigField signature "signature" with
            | none => .crashed
            | some sigValue =>
              match rsaVerify publicKey cmp (base64Decode sigValue) with
              | some true => .processed
              | some false => .signatureRejected
              | none => .verifyException

/-! ## Delete broadcasts (`src/routes.js` lines 84-184 and 265-305)

The flows are modelled as traces: the ordered list of externally visible
steps each code path performs.  `J` is the type of parsed JSON values;
`JSON.parse` of a stored snapshot appears as a function parameter. -/

/-- One externally visible step of a deletion flow. -/
inductive DeleteStep (J : Type) where
  /-- Call of `broadcastDeleteMessage(payload, followers, eventID, ...)`. -/
  | broadcastDelete (payload : J) (followers : List String) (eventId : String)
  /-- Removal of the event record from the store
  (`Event.remove({_id: id})` / `Event.deleteOne({id: ...})`). -/
  | removeFromDB (id : String)
deriving DecidableEq, Repr

/-- Modelled from the spec: `broadcastDeleteMessage` lives in
`src/activitypub.js`, which is not part of this corpus.  Per §4.6 and §5 it
fans the Delete activity out to every follower, treats each delivery
independently, and invokes its completion callback exactly once — with the
per-recipient statuses — after all attempts have resolved.  The trace
records the broadcast and then runs the caller's callback on the statuses
reported by the environment. -/
def broadcastDeleteMessage {J : Type} (payload : J) (followers : List String)
    (eventId : String) (statuses : List Bool)
    (callback : List Bool → List (DeleteStep J)) : List (DeleteStep J) :=
  .broadcastDelete payload followers eventId :: callback statuses

/-- The fields of a stored event the deletion flows read. -/
structure StoredEvent where
  /-- Field `event.id` (the public nanoid). -/
  id : String
  /-- Field `event._id` (the store's internal id). -/
  dbId : String
  /-- Field `event.followers`. -/
  followers : List String
  /-- Field `event.activityPubActor` (serialized snapshot; `none` = absent). -/
  activityPubActor : Option String
  /-- Field `event.activityPubEvent` (serialized snapshot; `none` = absent). -/
  activityPubEvent : Option String
deriving DecidableEq, Repr

/-- JS truthiness of a possibly-absent string field
(`undefined` and `""` are falsy). -/
def truthyStr : Option String → Bool
  | none => false
  | some s => s != ""

/-- Lines 141-168 of `src/routes.js`, the per-event body of the scheduled
deletion job: when the event has both ActivityPub fields, parse both
stored snapshots (lines 147-148), broadcast a Delete of the actor
snapshot, then — in its completion callback — a Delete of the event
snapshot, then — in that one's completion callback — remove the record;
otherwise remove the record directly.  `parseJson` models `JSON.parse`
(`none` = throws; a throw escapes to the promise catch on line 171, which
only logs, so nothing is broadcast or removed).  `statuses1`/`statuses2`
are the per-recipient outcomes the environment reports to each callback. -/
def deleteOldEventFlow {J : Type} (parseJson : String → Option J)
    (e : StoredEvent) (statuses1 statuses2 : List Bool) : List (DeleteStep J) :=
  if truthyStr e.activityPubActor && truthyStr e.activityPubEvent then
    match parseJson (e.activityPubActor.getD ""),
          parseJson (e.activityPubEvent.getD "") with
    | some jsonUpdateObject, some jsonEventObject =>
      broadcastDeleteMessage jsonUpdateObject e.followers e.id statuses1
        (fun _ =>
          broadcastDeleteMessage jsonEventObject e.followers e.id statuses2
            (fun _ => [.removeFromDB e.dbId]))
    | _, _ => []
  else
    [.removeFromDB e.dbId]

/-- Lines 280-305 of `src/routes.js`, the token-matched branch of
`router.post("/deleteevent/:eventID/:editToken")`: broadcast a Delete of
`JSON.parse(event.activityPubActor)` (line 282, outside any try block:
when the field is absent or unparseable the promise catch on line 437
answers with an error page and nothing is broadcast or removed), then —
in the completion callback — `Event.deleteOne({id: req.params.eventID})`.
Here `req.params.eventID` equals `e.id` because the event was found by
`Event.findOne({id: ...})`. -/
def deleteEventRouteFlow {J : Type} (parseJson : String → Option J)
    (e : StoredEvent) (statuses : List Bool) : List (DeleteStep J) :=
  match e.activityPubActor.bind parseJson with
  | none => []
  | some jsonUpdateObject =>
    broadcastDeleteMessage jsonUpdateObject e.followers e.id statuses
      (fun _ => [.removeFromDB e.id])

/-! ## Content negotiation and the event page (frontend routes file) -/

/-- Modelled from the spec: `activityPubContentType`
(`src/lib/activitypub.js`, not in this corpus) is the ActivityPub JSON-LD
media type named in §4.3 and §6; the claim's example spells it
`application/activity+json`. -/
def activityPubContentType : String := "application/activity+json"

/-- Modelled from the spec: `acceptsActivityPub` (`src/lib/activitypub.js`,
not in this corpus).  §4.3: true iff the request's media-type preference
list contains the ActivityPub JSON-LD type at a preference rank at or
above the HTML type, or if no HTML-acceptable type is present at all.
The preference list is given most-preferred first. -/
def acceptsActivityPub (accept : List String) : Bool :=
  match accept.findIdx? (· == activityPubContentType),
        accept.findIdx? (· == "text/html") with
  | some a, some h => decide (a ≤ h)
  | some _, none => true
  | none, some _ => false
  | none, none => true

/-- JS `event.activityPubActor || "\x7b\x7d"` (the literal in the source is
the two-character empty-JSON-object string). -/
def jsStringOrEmptyObject (o : Option String) : String :=
  match o with
  | none => "\x7b\x7d"
  | some s => if s == "" then "\x7b\x7d" else s

/-- The fields of a stored event the event-page route's response branch
reads. -/
structure EventRecord where
  id : String
  activityPubActor : Option String
deriving DecidableEq, Repr

/-- The response of `router.get("/:eventID")`. -/
inductive EventGetResponse where
  /-- Response `res.header("Content-Type", activityPubContentType).send(...)`.
  Here `res.send` re-serializes `JSON.parse(event.activityPubActor || "{}")`,
  so the body on the wire is the stored serialized document, with the
  empty-object string substituted for a missing or empty snapshot. -/
  | apDocument (contentType : String) (body : String)
  /-- Response `res.render("event", ...)`: the human-readable event page. -/
  | eventPage (eventId : String)
  /-- Response `res.status(404).render("404", ...)`. -/
  | notFound
deriving DecidableEq, Repr

/-- Route `router.get("/:eventID")` (frontend routes file, lines 132-394),
reduced to its response branch (lines 313-381): a missing event is a 404;
otherwise `acceptsActivityPub(req)` selects between the ActivityPub
document and the rendered event page. -/
def getEventRoute (ev : Option EventRecord) (accept : List String) :
    EventGetResponse :=
  match ev with
  | none => .notFound
  | some e =>
    if acceptsActivityPub accept then
      .apDocument activityPubContentType (jsStringOrEmptyObject e.activityPubActor)
    else
      .eventPage e.id

/-! ## Concrete fixtures used by the witness theorems -/

/-- Fixture: a well-formed Signature header. -/
def wSig : String :=
  "keyId=\"https://remote.example/actor\",headers=\"(request-target) host\",signature=\"QUJD\""

/-- Fixture: a Signature header with no `headers` field. -/
def wSigNoHeaders : String :=
  "keyId=\"https://remote.example/actor\",signature=\"QUJD\""

/-- Fixture: a fetched actor body (its parse is given by `wParseActor`). -/
def wActorBody : String :=
  "\x7b\"publicKey\":\x7b\"publicKeyPem\":\"WITNESS-PEM\"\x7d\x7d"

/-- Fixture: header lookup of the inbound request. -/
def wGetHeader : String → Option String :=
  fun h => if h == "host" then some "remote.example" else none

/-- Fixture: an inbound inbox request carrying `wSig`. -/
def wReq : InboxRequest :=
  { method := "POST", path := "/activitypub/inbox",
    signatureHeader := some wSig, getHeader := wGetHeader }

/-- Fixture: the same request without any Signature header. -/
def wReqNoSig : InboxRequest :=
  { method := "POST", path := "/activitypub/inbox",
    signatureHeader := none, getHeader := wGetHeader }

/-- Fixture: the same request carrying `wSigNoHeaders`. -/
def wReqNoHeaders : InboxRequest :=
  { method := "POST", path := "/activitypub/inbox",
    signatureHeader := some wSigNoHeaders, getHeader := wGetHeader }

/-- Fixture: every body parses to an actor document holding `"WITNESS-PEM"`. -/
def wParseActor : String → Option ActorDoc :=
  fun _ => some { publicKey := some { publicKeyPem := some "WITNESS-PEM" } }

/-- Fixture: a base64 decoder result. -/
def wBase64 : String → List Nat :=
  fun _ => [81, 85, 74, 68]

/-- Fixture: a verifier that accepts everything. -/
def wVerifyTrue : String → String → List Nat → Option Bool :=
  fun _ _ _ => some true

/-- Fixture: a verifier that rejects everything. -/
def wVerifyFalse : String → String → List Nat → Option Bool :=
  fun _ _ _ => some false

/-- Fixture: a verifier that always throws. -/
def wVerifyThrow : String → String → List Nat → Option Bool :=
  fun _ _ _ => none

/-- Fixture: a stored event with both ActivityPub snapshots. -/
def wStoredEvent : StoredEvent :=
  { id := "EVENTID", dbId := "OID",
    followers := ["https://a.example/inbox", "https://b.example/inbox"],
    activityPubActor := some "ACTORSNAPSHOT",
    activityPubEvent := some "EVENTSNAPSHOT" }

/-- Fixture: an event record with a stored actor snapshot. -/
def wEventRecord : EventRecord :=
  { id := "EVENTID", activityPubActor := some "ACTORSNAPSHOT" }

/-- Fixture: an event record without a stored snapshot. -/
def wEventRecordNoActor : EventRecord :=
  { id := "EVENTID", activityPubActor := none }

/-! ## Helper lemmas -/

theorem mk_data (s : String) : String.mk s.data = s := rfl

theorem splitOnChar_ne_nil (sep : Char) (l : List Char) :
    splitOnChar sep l ≠ [] := by
  induction l with
  | nil => simp [splitOnChar]
  | cons c rest ih =>
    simp only [splitOnChar]
    cases h : splitOnChar sep rest with
    | nil => exact absurd h ih
    | cons s ss => by_cases hc : c = sep <;> simp [hc]

theorem splitOnChar_of_not_mem {sep : Char} {l : List Char} (h : sep ∉ l) :
    splitOnChar sep l = [l] := by
  induction l with
  | nil => rfl
  | cons c rest ih =>
    have hc : ¬(c = sep) := by rintro rfl; exact h (List.mem_cons_self c rest)
    have hrest : sep ∉ rest := fun m => h (List.mem_cons_of_mem c m)
    simp [splitOnChar, ih hrest, hc]

theorem splitOnChar_append {sep : Char} {xs : List Char} (ys : List Char)
    (h : sep ∉ xs) :
    splitOnChar sep (xs ++ sep :: ys) = xs :: splitOnChar sep ys := by
  induction xs with
  | nil =>
    simp only [List.nil_append, splitOnChar]
    cases hy : splitOnChar sep ys with
    | nil => exact absurd hy (splitOnChar_ne_nil sep ys)
    | cons s ss => simp
  | cons c rest ih =>
    have hc : ¬(c = sep) := by rintro rfl; exact h (List.mem_cons_self c rest)
    have hrest : sep ∉ rest := fun m => h (List.mem_cons_of_mem c m)
    simp only [List.cons_append, splitOnChar, List.append_eq]
    rw [ih hrest]
    simp [hc]

theorem jsSplit_of_not_mem {sep : Char} {s : String} (h : sep ∉ s.data) :
    jsSplit sep s = [s] := by
  unfold jsSplit
  rw [splitOnChar_of_not_mem h]
  simp [mk_data]

theorem dropLeadingQuote_of_not_mem {l : List Char} (h : '"' ∉ l) :
    dropLeadingQuote l = l := by
  cases l with
  | nil => rfl
  | cons c rest =>
    have hc : ¬(c = '"') := by rintro rfl; exact h (List.mem_cons_self _ _)
    simp [dropLeadingQuote, hc]

theorem dropTrailingQuote_of_not_mem {l : List Char} (h : '"' ∉ l) :
    dropTrailingQuote l = l := by
  unfold dropTrailingQuote
  rw [dropLeadingQuote_of_not_mem (by simpa using h), List.reverse_reverse]

theorem stripQuotes_of_not_mem {s : String} (h : '"' ∉ s.data) :
    stripQuotes s = s := by
  unfold stripQuotes
  rw [dropLeadingQuote_of_not_mem h, dropTrailingQuote_of_not_mem h]

theorem dropLeadingQuote_quote (t : List Char) :
    dropLeadingQuote ('"' :: t) = t := by
  simp [dropLeadingQuote]

theorem dropTrailingQuote_append_quote (v : List Char) :
    dropTrailingQuote (v ++ ['"']) = v := by
  unfold dropTrailingQuote
  rw [List.reverse_append]
  simp only [List.reverse_cons, List.reverse_nil, List.nil_append,
    List.singleton_append]
  rw [dropLeadingQuote_quote, List.reverse_reverse]

theorem stripQuotes_quoted (v : List Char) :
    stripQuotes (String.mk ('"' :: (v ++ ['"']))) = String.mk v := by
  unfold stripQuotes
  show String.mk (dropTrailingQuote (dropLeadingQuote ('"' :: (v ++ ['"'])))) =
    String.mk v
  rw [dropLeadingQuote_quote, dropTrailingQuote_append_quote]

theorem stripQuotes_open_quoted {v : List Char} (h : '"' ∉ v) :
    stripQuotes (String.mk ('"' :: v)) = String.mk v := by
  unfold stripQuotes
  show String.mk (dropTrailingQuote (dropLeadingQuote ('"' :: v))) = String.mk v
  rw [dropLeadingQuote_quote, dropTrailingQuote_of_not_mem h]

theorem truthy_isFederated (v : JsValue) : truthy (isFederated v) = true := by
  unfold isFederated jsOr
  cases h : truthy v with
  | false => rfl
  | true => exact h

theorem data_mk (l : List Char) : (String.mk l).data = l := rfl

/-- A token whose characters avoid comma, equals sign and double quote. -/
abbrev plainToken (s : String) : Prop :=
  ∀ c ∈ s.data, ¬(c = ',') ∧ ¬(c = '=') ∧ ¬(c = '"')

/-- Parsing a single `key="value"` pair whose value contains no `=`:
the key is bound to the complete unquoted value. -/
theorem parseSignatureHeader_plain_pair {k v : String}
    (hk : plainToken k) (hv : plainToken v) :
    parseSignatureHeader (k ++ "=\"" ++ v ++ "\"") = [(k, some v)] := by
  have hkc : ',' ∉ k.data := fun m => ((hk _ m).1) rfl
  have hke : '=' ∉ k.data := fun m => ((hk _ m).2.1) rfl
  have hkq : '"' ∉ k.data := fun m => ((hk _ m).2.2) rfl
  have hvc : ',' ∉ v.data := fun m => ((hv _ m).1) rfl
  have hve : '=' ∉ v.data := fun m => ((hv _ m).2.1) rfl
  have hvq : '"' ∉ v.data := fun m => ((hv _ m).2.2) rfl
  have e1 : ("=\"" : String).data = ['=', '"'] := rfl
  have e2 : ("\"" : String).data = ['"'] := rfl
  have hd : (k ++ "=\"" ++ v ++ "\"").data
      = k.data ++ '=' :: '"' :: (v.data ++ ['"']) := by
    simp [String.data_append, e1, e2]
  have hnc : ',' ∉ (k ++ "=\"" ++ v ++ "\"").data := by
    rw [hd]
    intro m
    rcases List.mem_append.mp m with m | m
    · exact hkc m
    · rcases List.mem_cons.mp m with m | m
      · exact absurd m (by decide)
      · rcases List.mem_cons.mp m with m | m
        · exact absurd m (by decide)
        · rcases List.mem_append.mp m with m | m
          · exact hvc m
          · exact absurd m (by decide)
  have hpair : jsSplit '=' (k ++ "=\"" ++ v ++ "\"")
      = [k, String.mk ('"' :: (v.data ++ ['"']))] := by
    unfold jsSplit
    rw [hd, splitOnChar_append _ hke]
    have hrest : '=' ∉ '"' :: (v.data ++ ['"']) := by
      intro m
      rcases List.mem_cons.mp m with m | m
      · exact absurd m (by decide)
      · rcases List.mem_append.mp m with m | m
        · exact hve m
        · exact absurd m (by decide)
    rw [splitOnChar_of_not_mem hrest]
    simp [mk_data]
  unfold parseSignatureHeader
  rw [jsSplit_of_not_mem hnc]
  simp only [List.map_cons, List.map_nil]
  rw [hpair]
  simp [stripQuotes_of_not_mem hkq, stripQuotes_quoted, mk_data]

/-- Parsing a single `key="value"` pair whose value contains an internal
`=`: the key is bound only to the part of the value before that `=`. -/
theorem parseSignatureHeader_pair_with_eq {k v₁ v₂ : String}
    (hk : plainToken k) (h₁ : plainToken v₁)
    (h₂ : ∀ c ∈ v₂.data, ¬(c = ',') ∧ ¬(c = '"')) :
    parseSignatureHeader (k ++ "=\"" ++ v₁ ++ "=" ++ v₂ ++ "\"")
      = [(k, some v₁)] := by
  have hkc : ',' ∉ k.data := fun m => ((hk _ m).1) rfl
  have hke : '=' ∉ k.data := fun m => ((hk _ m).2.1) rfl
  have hkq : '"' ∉ k.data := fun m => ((hk _ m).2.2) rfl
  have h1c : ',' ∉ v₁.data := fun m => ((h₁ _ m).1) rfl
  have h1e : '=' ∉ v₁.data := fun m => ((h₁ _ m).2.1) rfl
  have h1q : '"' ∉ v₁.data := fun m => ((h₁ _ m).2.2) rfl
  have h2c : ',' ∉ v₂.data := fun m => ((h₂ _ m).1) rfl
  have e1 : ("=\"" : String).data = ['=', '"'] := rfl
  have e2 : ("\"" : String).data = ['"'] := rfl
  have e3 : ("=" : String).data = ['='] := rfl
  have hd : (k ++ "=\"" ++ v₁ ++ "=" ++ v₂ ++ "\"").data
      = k.data ++ '=' :: '"' :: (v₁.data ++ '=' :: (v₂.data ++ ['"'])) := by
    simp [String.data_append, e1, e2, e3]
  have hnc : ',' ∉ (k ++ "=\"" ++ v₁ ++ "=" ++ v₂ ++ "\"").data := by
    rw [hd]
    intro m
    rcases List.mem_append.mp m with m | m
    · exact hkc m
    · rcases List.mem_cons.mp m with m | m
      · exact absurd m (by decide)
      · rcases List.mem_cons.mp m with m | m
        · exact absurd m (by decide)
        · rcases List.mem_append.mp m with m | m
          · exact h1c m
          · rcases List.mem_cons.mp m with m | m
            · exact absurd m (by decide)
            · rcases List.mem_append.mp m with m | m
              · exact h2c m
              · exact absurd m (by decide)
  have hq1e : '=' ∉ '"' :: v₁.data := by
    intro m
    rcases List.mem_cons.mp m with m | m
    · exact absurd m (by decide)
    · exact h1e m
  have hpair : jsSplit '=' (k ++ "=\"" ++ v₁ ++ "=" ++ v₂ ++ "\"")
      = k :: String.mk ('"' :: v₁.data)
        :: (splitOnChar '=' (v₂.data ++ ['"'])).map String.mk := by
    unfold jsSplit
    rw [hd]
    have hys : ('"' :: (v₁.data ++ '=' :: (v₂.data ++ ['"'])))
        = ('"' :: v₁.data) ++ '=' :: (v₂.data ++ ['"']) := by simp
    rw [splitOnChar_append _ hke, hys, splitOnChar_append _ hq1e]
    simp [mk_data]
  unfold parseSignatureHeader
  rw [jsSplit_of_not_mem hnc]
  simp only [List.map_cons, List.map_nil]
  rw [hpair]
  simp [stripQuotes_of_not_mem hkq, stripQuotes_open_quoted h1q, mk_data]

/-- Reading back the key of a header that parses to a single pair. -/
theorem sigField_of_parse_single {s k : String} {w : Option String}
    (h : parseSignatureHeader s = [(k, w)]) :
    sigField s k = w := by
  unfold sigField
  rw [h]
  simp [List.find?]

/-! ## Claim theorems -/

/-- Claim C9: the initializer `config.general.is_federated || true` is truthy
for every possible configuration value — in particular it is the literal
`true` whenever the configured value is a boolean or absent — so the inbox
handler never takes its early 404 return. -/
theorem claim9_nonfederated_branch_unreachable :
    (∀ v : JsValue, truthy (isFederated v) = true)
    ∧ (∀ b : Bool, isFederated (.bool b) = .bool true)
    ∧ isFederated .undef = .bool true
    ∧ ∀ (v : JsValue) (req : InboxRequest) (fa : Option String)
        (pa : String → Option ActorDoc) (dec : String → List Nat)
        (ver : String → String → List Nat → Option Bool),
        inboxHandler v req fa pa dec ver ≠ .notFederated := by
  refine ⟨truthy_isFederated, ?_, rfl, ?_⟩
  · intro b; cases b <;> rfl
  · intro v req fa pa dec ver
    unfold inboxHandler
    rw [truthy_isFederated]
    cases h0 : req.signatureHeader with
    | none => simp
    | some sig =>
      cases h1 : parsedActorOf fa pa with
      | none => simp
      | some doc =>
        cases h2 : sigField sig "headers" with
        | none => simp [h2]
        | some hf =>
          cases h3 : resolvePublicKeyPem doc with
          | none => simp [h2, h3]
          | some pk =>
            cases h4 : sigField sig "signature" with
            | none => simp [h2, h3, h4]
            | some sv =>
              cases h5 : ver pk (comparison_string hf req.getHeader) (dec sv) with
              | none => simp [h2, h3, h4, h5]
              | some b => cases b <;> simp [h2, h3, h4, h5]

/-- Witness for claim C9 at the configuration value `false` and a concrete
request. -/
theorem claim9_witness :
    truthy (isFederated (.bool false)) = true
    ∧ inboxHandler (.bool false) wReqNoSig none wParseActor wBase64
        wVerifyTrue ≠ .notFederated :=
  ⟨claim9_nonfederated_branch_unreachable.1 (.bool false),
   claim9_nonfederated_branch_unreachable.2.2.2 (.bool false) wReqNoSig none
     wParseActor wBase64 wVerifyTrue⟩

/-- Claim C4: for every inbound inbox request (whose method is `POST` and
whose path is `/activitypub/inbox`, since that is the route), the
comparison string the code builds — with its hard-coded request-target
line — equals the canonical signing string of the spec, built from the
lowercased request method and the request path. -/
theorem claim4_comparison_string_matches_spec
    (req : InboxRequest) (headersField : String)
    (hm : req.method = "POST") (hp : req.path = "/activitypub/inbox") :
    comparison_string headersField req.getHeader
      = specSigningString headersField req.method req.path req.getHeader := by
  rw [hm, hp]
  unfold comparison_string specSigningString
  congr 1

/-- Witness for claim C4 at a concrete request and headers field. -/
theorem claim4_witness :
    wReq.method = "POST" ∧ wReq.path = "/activitypub/inbox"
    ∧ comparison_string "(request-target) host" wReq.getHeader
      = specSigningString "(request-target) host" wReq.method wReq.path
          wReq.getHeader :=
  ⟨rfl, rfl,
    claim4_comparison_string_matches_spec wReq "(request-target) host" rfl rfl⟩

/-- Claim C1: for an inbound POST to the inbox carrying a Signature header
whose keyId dereference yields a parseable actor document with a public
key, the handler invokes inbox processing iff RSA-SHA256 verification of
the base64-decoded signature value against the reconstructed comparison
string under the fetched key reports success, and it responds 401 when
verification reports failure. -/
theorem claim1_inbox_accepts_iff_signature_verifies
    (v : JsValue) (req : InboxRequest) (actorBody sig hf sv pem : String)
    (parseActor : String → Option ActorDoc)
    (base64Decode : String → List Nat)
    (rsaVerify : String → String → List Nat → Option Bool)
    (hsig : req.signatureHeader = some sig)
    (hdoc : parseActor actorBody
      = some { publicKey := some { publicKeyPem := some pem } })
    (hhf : sigField sig "headers" = some hf)
    (hsv : sigField sig "signature" = some sv) :
    (inboxHandler v req (some actorBody) parseActor base64Decode rsaVerify
        = .processed
      ↔ rsaVerify pem (comparison_string hf req.getHeader) (base64Decode sv)
        = some true)
    ∧ (rsaVerify pem (comparison_string hf req.getHeader) (base64Decode sv)
        = some false
      → statusOf (inboxHandler v req (some actorBody) parseActor base64Decode
          rsaVerify) = some 401) := by
  simp only [inboxHandler, parsedActorOf, resolvePublicKeyPem,
    truthy_isFederated, hsig, hdoc, hhf, hsv, Bool.not_true]
  cases hres : rsaVerify pem (comparison_string hf req.getHeader)
      (base64Decode sv) with
  | none => simp [statusOf]
  | some b => cases b <;> simp [statusOf]

/-- Witness for claim C1 at a concrete request, actor body and verifier. -/
theorem claim1_witness :
    sigField wSig "headers" = some "(request-target) host"
    ∧ (inboxHandler (.bool false) wReq (some wActorBody) wParseActor wBase64
          wVerifyTrue = .processed
      ↔ wVerifyTrue "WITNESS-PEM"
          (comparison_string "(request-target) host" wReq.getHeader)
          (wBase64 "QUJD") = some true) :=
  ⟨by decide,
    (claim1_inbox_accepts_iff_signature_verifies (.bool false) wReq wActorBody
      wSig "(request-target) host" "QUJD" "WITNESS-PEM" wParseActor wBase64
      wVerifyTrue rfl rfl (by decide) (by decide)).1⟩

/-- Claim C2: an inbound inbox POST without a Signature header, or whose
signature fails cryptographic verification (reported false or throwing),
gets a 401 response and never reaches inbox processing. -/
theorem claim2_reject_unsigned_and_unverified
    (v : JsValue) (req : InboxRequest) (fa : Option String)
    (actorBody sig hf sv pem : String)
    (parseActor : String → Option ActorDoc)
    (base64Decode : String → List Nat)
    (rsaVerify : String → String → List Nat → Option Bool) :
    (req.signatureHeader = none →
      statusOf (inboxHandler v req fa parseActor base64Decode rsaVerify)
          = some 401
      ∧ inboxHandler v req fa parseActor base64Decode rsaVerify ≠ .processed)
    ∧ (req.signatureHeader = some sig →
      parseActor actorBody
          = some { publicKey := some { publicKeyPem := some pem } } →
      sigField sig "headers" = some hf →
      sigField sig "signature" = some sv →
      rsaVerify pem (comparison_string hf req.getHeader) (base64Decode sv)
          ≠ some true →
      statusOf (inboxHandler v req (some actorBody) parseActor base64Decode
          rsaVerify) = some 401
      ∧ inboxHandler v req (some actorBody) parseActor base64Decode rsaVerify
          ≠ .processed) := by
  constructor
  · intro hnone
    simp only [inboxHandler, truthy_isFederated, hnone, Bool.not_true]
    simp [statusOf]
  · intro hsig hdoc hhf hsv hver
    simp only [inboxHandler, parsedActorOf, resolvePublicKeyPem,
      truthy_isFederated, hsig, hdoc, hhf, hsv, Bool.not_true]
    cases hres : rsaVerify pem (comparison_string hf req.getHeader)
        (base64Decode sv) with
    | none => simp [statusOf]
    | some b =>
      cases b
      · simp [statusOf]
      · exact absurd hres hver

/-- Witness for claim C2: the missing-signature half at a concrete request. -/
theorem claim2_witness :
    wReqNoSig.signatureHeader = none
    ∧ statusOf (inboxHandler (.bool true) wReqNoSig none wParseActor wBase64
        wVerifyFalse) = some 401 :=
  ⟨rfl,
    ((claim2_reject_unsigned_and_unverified (.bool true) wReqNoSig none
      wActorBody wSig "(request-target) host" "QUJD" "WITNESS-PEM" wParseActor
      wBase64 wVerifyFalse).1 rfl).1⟩

/-- Claim C6: when the keyId dereference fails (the callback sees an
`undefined` body) or the body does not parse as an actor document, the
handler responds 500 and the activity is never processed. -/
theorem claim6_actor_resolution_failure_is_500
    (v : JsValue) (req : InboxRequest) (fa : Option String) (sig : String)
    (parseActor : String → Option ActorDoc)
    (base64Decode : String → List Nat)
    (rsaVerify : String → String → List Nat → Option Bool)
    (hsig : req.signatureHeader = some sig)
    (hfail : parsedActorOf fa parseActor = none) :
    inboxHandler v req fa parseActor base64Decode rsaVerify = .actorParseError
    ∧ statusOf (inboxHandler v req fa parseActor base64Decode rsaVerify)
        = some 500
    ∧ inboxHandler v req fa parseActor base64Decode rsaVerify ≠ .processed := by
  simp only [inboxHandler, truthy_isFederated, hsig, hfail, Bool.not_true]
  simp [statusOf]

/-- Witness for claim C6 at a concrete request whose actor fetch failed. -/
theorem claim6_witness :
    wReq.signatureHeader = some wSig
    ∧ parsedActorOf none wParseActor = none
    ∧ inboxHandler (.bool true) wReq none wParseActor wBase64 wVerifyTrue
        = .actorParseError :=
  ⟨rfl, rfl,
    (claim6_actor_resolution_failure_is_500 (.bool true) wReq none wSig
      wParseActor wBase64 wVerifyTrue rfl rfl).1⟩

/-- Claim C3 (amended): the parser splits the Signature header on commas
and each pair on every `=`, strips one boundary quote from each token and
binds `el[0]` to `el[1]`: a key whose quoted value contains no `=` is
bound to its complete unquoted value, but a value containing `=` (as
base64 signature padding does) is truncated at its first internal `=`;
and no missing-key check exists — a Signature header whose `headers`
field is missing leads to an uncaught exception in the handler, not to a
MalformedSignature rejection. -/
theorem claim3_signature_parsing_truncates_at_equals
    (k v v₁ v₂ : String)
    (hk : plainToken k) (hv : plainToken v) (h₁ : plainToken v₁)
    (h₂ : ∀ c ∈ v₂.data, ¬(c = ',') ∧ ¬(c = '"')) :
    sigField (k ++ "=\"" ++ v ++ "\"") k = some v
    ∧ sigField (k ++ "=\"" ++ v₁ ++ "=" ++ v₂ ++ "\"") k = some v₁
    ∧ ∀ (vv : JsValue) (req : InboxRequest) (fa : Option String)
        (doc : ActorDoc) (pa : String → Option ActorDoc)
        (dec : String → List Nat)
        (ver : String → String → List Nat → Option Bool) (sig : String),
        req.signatureHeader = some sig →
        parsedActorOf fa pa = some doc →
        sigField sig "headers" = none →
        inboxHandler vv req fa pa dec ver = .crashed :=
  ⟨sigField_of_parse_single (parseSignatureHeader_plain_pair hk hv),
   sigField_of_parse_single (parseSignatureHeader_pair_with_eq hk h₁ h₂),
   by
     intro vv req fa doc pa dec ver sig hsig hpa hhf
     simp only [inboxHandler, truthy_isFederated, hsig, hpa, hhf,
       Bool.not_true]
     simp⟩

/-- Counterexample to claim C3 as stated: at the concrete header
`keyId="https://remote.example/actor",headers="(request-target) host
date",signature="AB=CD"` the parser binds `signature` to `"AB"`, not to
its complete unquoted value `"AB=CD"`. -/
theorem claim3_counterexample :
    sigField "keyId=\"https://remote.example/actor\",headers=\"(request-target) host date\",signature=\"AB=CD\"" "signature"
      = some "AB"
    ∧ ¬(sigField "keyId=\"https://remote.example/actor\",headers=\"(request-target) host date\",signature=\"AB=CD\"" "signature"
      = some "AB=CD") := by
  constructor <;> decide

/-- Witness for claim C3 (amended) at concrete tokens: the pair
`signature="AB=CD"` binds `signature` to `"AB"`. -/
theorem claim3_witness :
    sigField ("signature" ++ "=\"" ++ "AB" ++ "=" ++ "CD" ++ "\"")
        "signature" = some "AB" :=
  (claim3_signature_parsing_truncates_at_equals "signature" "X" "AB" "CD"
    (by decide) (by decide) (by decide) (by decide)).2.1

/-- Claim C5 (amended): exceptions thrown by `verifier.verify` are caught
and mapped to a 401 signature-invalid response, and exceptions while
reading the fetched actor body are mapped to a 500 response; but a
Signature header whose `headers` field is missing makes line 1471 —
outside both `try` blocks — throw an uncaught TypeError, so for that
input the handler produces no response at all. -/
theorem claim5_exception_mapping
    (v : JsValue) (req : InboxRequest) (fa : Option String)
    (sig hf sv pem : String) (doc : ActorDoc)
    (parseActor : String → Option ActorDoc)
    (base64Decode : String → List Nat)
    (rsaVerify : String → String → List Nat → Option Bool)
    (hsig : req.signatureHeader = some sig) :
    (parsedActorOf fa parseActor = none →
      inboxHandler v req fa parseActor base64Decode rsaVerify
          = .actorParseError
      ∧ statusOf (inboxHandler v req fa parseActor base64Decode rsaVerify)
          = some 500)
    ∧ (parsedActorOf fa parseActor = some doc →
      sigField sig "headers" = none →
      inboxHandler v req fa parseActor base64Decode rsaVerify = .crashed
      ∧ statusOf (inboxHandler v req fa parseActor base64Decode rsaVerify)
          = none)
    ∧ (parsedActorOf fa parseActor = some doc →
      sigField sig "headers" = some hf →
      resolvePublicKeyPem doc = some pem →
      sigField sig "signature" = some sv →
      rsaVerify pem (comparison_string hf req.getHeader) (base64Decode sv)
          = none →
      inboxHandler v req fa parseActor base64Decode rsaVerify
          = .verifyException
      ∧ statusOf (inboxHandler v req fa parseActor base64Decode rsaVerify)
          = some 401) := by
  refine ⟨?_, ?_, ?_⟩
  · intro h1
    simp only [inboxHandler, truthy_isFederated, hsig, h1, Bool.not_true]
    simp [statusOf]
  · intro h1 h2
    simp only [inboxHandler, truthy_isFederated, hsig, h1, h2, Bool.not_true]
    simp [statusOf]
  · intro h1 h2 h3 h4 h5
    simp only [inboxHandler, truthy_isFederated, hsig, h1, h2, h3, h4, h5,
      Bool.not_true]
    simp [statusOf]

/-- Counterexample to claim C5 as stated: at the concrete Signature header
`keyId="https://remote.example/actor",signature="QUJD"` — present, but
with no `headers` field — the handler neither accepts nor rejects: it
reaches the uncaught-exception state and sends no response. -/
theorem claim5_counterexample :
    inboxHandler (.bool true) wReqNoHeaders (some wActorBody) wParseActor
        wBase64 wVerifyTrue = .crashed
    ∧ statusOf (inboxHandler (.bool true) wReqNoHeaders (some wActorBody)
        wParseActor wBase64 wVerifyTrue) = none := by
  constructor <;> decide

/-- Witness for claim C5 (amended) at a concrete request whose verifier
throws. -/
theorem claim5_witness :
    statusOf (inboxHandler (.bool true) wReq (some wActorBody) wParseActor
        wBase64 wVerifyThrow) = some 401 :=
  ((claim5_exception_mapping (.bool true) wReq (some wActorBody) wSig
      "(request-target) host" "QUJD" "WITNESS-PEM"
      { publicKey := some { publicKeyPem := some "WITNESS-PEM" } }
      wParseActor wBase64 wVerifyThrow rfl).2.2 rfl (by decide) rfl
      (by decide) rfl).2

/-- Claim C7: for every event with stored ActivityPub data that is deleted
by the scheduled cleanup job or the delete-event route, the Delete
broadcasts carry the snapshots parsed from the stored pre-deletion
`activityPubActor` (and `activityPubEvent`) fields, and the store removal
is the last step of the trace, strictly after the broadcast completion
callbacks have run — whatever per-recipient statuses those callbacks are
handed. -/
theorem claim7_broadcast_completes_before_removal {J : Type}
    (parseJson : String → Option J) (e : StoredEvent) (a b : String)
    (j1 j2 : J)
    (ha : e.activityPubActor = some a) (ha' : ¬(a = ""))
    (hb : e.activityPubEvent = some b) (hb' : ¬(b = ""))
    (hj1 : parseJson a = some j1) (hj2 : parseJson b = some j2) :
    (∀ statuses1 statuses2 : List Bool,
      deleteOldEventFlow parseJson e statuses1 statuses2 =
        [.broadcastDelete j1 e.followers e.id,
         .broadcastDelete j2 e.followers e.id,
         .removeFromDB e.dbId])
    ∧ (∀ statuses : List Bool,
      deleteEventRouteFlow parseJson e statuses =
        [.broadcastDelete j1 e.followers e.id,
         .removeFromDB e.id]) := by
  have t1 : truthyStr (some a) = true := by simp [truthyStr, ha']
  have t2 : truthyStr (some b) = true := by simp [truthyStr, hb']
  constructor
  · intro s1 s2
    simp only [deleteOldEventFlow, t1, t2, ha, hb, Option.getD_some,
      Bool.and_self, if_true, hj1, hj2, broadcastDeleteMessage]
  · intro s
    simp only [deleteEventRouteFlow, ha, Option.some_bind, hj1,
      broadcastDeleteMessage]

/-- Witness for claim C7 at a concrete stored event, with one failing and
one succeeding recipient reported to each callback. -/
theorem claim7_witness :
    wStoredEvent.activityPubActor = some "ACTORSNAPSHOT"
    ∧ deleteOldEventFlow (fun s => some s) wStoredEvent [true, false]
        [false, true] =
      [.broadcastDelete "ACTORSNAPSHOT" wStoredEvent.followers "EVENTID",
       .broadcastDelete "EVENTSNAPSHOT" wStoredEvent.followers "EVENTID",
       .removeFromDB "OID"] :=
  ⟨rfl,
    (claim7_broadcast_completes_before_removal (fun s => some s) wStoredEvent
      "ACTORSNAPSHOT" "EVENTSNAPSHOT" "ACTORSNAPSHOT" "EVENTSNAPSHOT" rfl
      (by decide) rfl (by decide) rfl rfl).1 [true, false] [false, true]⟩

/-- Claim C8: a GET of an event URL that negotiates the ActivityPub
content type receives the stored serialized actor document under the
ActivityPub JSON-LD content type; a GET that accepts only `text/html`
receives the rendered event page. -/
theorem claim8_event_content_negotiation
    (ev : EventRecord) (accept : List String) (s : String)
    (hs : ev.activityPubActor = some s) (hne : ¬(s = "")) :
    (acceptsActivityPub accept = true →
      getEventRoute (some ev) accept = .apDocument activityPubContentType s)
    ∧ (accept = ["text/html"] →
      getEventRoute (some ev) accept = .eventPage ev.id) := by
  constructor
  · intro hap
    simp [getEventRoute, hap, jsStringOrEmptyObject, hs, hne]
  · intro hacc
    subst hacc
    have hneg : acceptsActivityPub ["text/html"] = false := by decide
    simp [getEventRoute, hneg]

/-- Witness for claim C8: both branches at a concrete event record. -/
theorem claim8_witness :
    acceptsActivityPub ["application/activity+json"] = true
    ∧ getEventRoute (some wEventRecord) ["application/activity+json"]
        = .apDocument activityPubContentType "ACTORSNAPSHOT"
    ∧ getEventRoute (some wEventRecord) ["text/html"]
        = .eventPage "EVENTID" :=
  ⟨by decide,
    (claim8_event_content_negotiation wEventRecord
      ["application/activity+json"] "ACTORSNAPSHOT" rfl (by decide)).1
      (by decide),
    (claim8_event_content_negotiation wEventRecord ["text/html"]
      "ACTORSNAPSHOT" rfl (by decide)).2 rfl⟩

/-- Claim C10: a GET of an event URL that negotiates the ActivityPub
content type, for an event without a stored `activityPubActor` snapshot,
receives the empty JSON object under the ActivityPub content type — not
an error response. -/
theorem claim10_missing_snapshot_yields_empty_object
    (ev : EventRecord) (accept : List String)
    (hs : truthyStr ev.activityPubActor = false)
    (hap : acceptsActivityPub accept = true) :
    getEventRoute (some ev) accept
        = .apDocument activityPubContentType "\x7b\x7d"
    ∧ getEventRoute (some ev) accept ≠ .notFound := by
  have hbody : jsStringOrEmptyObject ev.activityPubActor = "\x7b\x7d" := by
    cases h : ev.activityPubActor with
    | none => rfl
    | some s =>
      rw [h] at hs
      simp only [truthyStr, bne_eq_false_iff_eq] at hs
      simp [jsStringOrEmptyObject, hs]
  constructor
  · simp [getEventRoute, hap, hbody]
  · simp [getEventRoute, hap]

/-- Witness for claim C10 at a concrete snapshot-less event record. -/
theorem claim10_witness :
    truthyStr wEventRecordNoActor.activityPubActor = false
    ∧ getEventRoute (some wEventRecordNoActor) ["application/activity+json"]
        = .apDocument activityPubContentType "\x7b\x7d" :=
  ⟨rfl,
    (claim10_missing_snapshot_yields_empty_object wEventRecordNoActor
      ["application/activity+json"] rfl (by decide)).1⟩

end Gathio
